import Mathlib

/-!
Verification of the key-custody core of the brotherhood-communication system.

The development shallowly embeds the relevant JavaScript modules:

* `MasterKey`   — auth-service `config/masterKey.js` (master-key lifecycle,
  envelope wrap/unwrap via `crypto.createCipher('aes-256-gcm', masterKey)`);
* `AuthRoutes`  — auth-service `routes/auth.js` (the logout route that inserts
  a token id into the durable `token_blacklist` table);
* `MsgAuth`     — message-service `middleware/auth.js` (`checkTokenBlacklist`,
  `verifyDualAuth`);
* `AuthClient`  — message-service / KACLS `services/authService.js`
  (`fetchAuthPublicKey`, `getAuthPublicKey`).

Modelling conventions:

* Byte buffers are `List Int`; base64/utf8 transcoding is a bijection on byte
  sequences and is modelled as the identity.
* AES-256-GCM is idealised: the deprecated `crypto.createCipher` derives the
  cipher key and IV deterministically from the password alone (EVP_BytesToKey
  with no salt), captured by `evpBytesToKey`; encryption adds a keystream that
  is a function of the derived key, IV and byte position; the authentication
  tag binds the key, IV and ciphertext collision-freely (an ideal MAC).
* Opaque identifiers compared only for equality in the code (jti, subject id,
  username, email, public keys, storage passwords) are modelled as `Nat`.
* Timestamps are `Int` (milliseconds where the code uses `Date.now()`,
  seconds where the code uses JWT `exp`/`iat`).
-/

namespace MasterKey

/-- Errors thrown by the master-key module.  The module throws
`Master key not initialized` from `getCurrentMasterKey`, and its wrap/unwrap
functions catch every error and rethrow a single generic operation error. -/
inductive KeyOpError where
  | notInitialized
  | wrapFailed
  | unwrapFailed
  deriving DecidableEq, Repr

/-- Module-level mutable state of `config/masterKey.js`:
`currentMasterKey`, `keyVersion`, `keyCreatedAt`.  At process start
`currentMasterKey = null`, `keyVersion = 1`, `keyCreatedAt = null`. -/
structure MasterKeyState where
  currentMasterKey : Option (List Int)
  keyVersion : Nat
  keyCreatedAt : Option Int
  deriving DecidableEq, Repr

/-- The state of the module before `initMasterKey` runs. -/
def initialState : MasterKeyState :=
  { currentMasterKey := none, keyVersion := 1, keyCreatedAt := none }

/-- The key object built by `generateMasterKey`: fresh random bytes
(modelled as the `entropy` argument), version `keyVersion + 1`, creation
timestamp, and a derived key id (sha256 truncation, idealised as an injective
function of the key bytes, here the identity). -/
structure KeyObject where
  key : List Int
  version : Nat
  createdAt : Int
  keyId : List Int
  deriving DecidableEq, Repr

/-- `generateMasterKey`: builds a new key object from fresh random bytes.
The version is one more than the module-level `keyVersion`. -/
def generateMasterKey (st : MasterKeyState) (entropy : List Int) (now : Int) :
    KeyObject :=
  { key := entropy, version := st.keyVersion + 1, createdAt := now,
    keyId := entropy }

/-- The at-rest encrypted master-key file.  `saveMasterKey` encrypts the key
object with `aes-256-cbc` under the storage password; idealised as a blob
that records which password it was encrypted under — decryption with any
other password fails the CBC padding check. -/
structure StorageBlob where
  encPassword : Nat
  payload : KeyObject
  deriving DecidableEq, Repr

/-- `saveMasterKey`: writes the key object encrypted under the storage
password. -/
def saveMasterKey (storagePassword : Nat) (k : KeyObject) : StorageBlob :=
  { encPassword := storagePassword, payload := k }

/-- `loadMasterKey`: returns `null` when the key file does not exist; when it
exists, attempts to decrypt it with the storage password.  The body catches
every error — including a decryption failure — and returns `null`. -/
def loadMasterKey (file : Option StorageBlob) (storagePassword : Nat) :
    Option KeyObject :=
  match file with
  | none => none
  | some blob =>
      if blob.encPassword = storagePassword then some blob.payload else none

/-- `rotateMasterKey`: generates a new key object, makes it the module state,
and saves it.  The previous key bytes are only held in a local variable and
are dropped; no archive of prior versions is kept. -/
def rotateMasterKey (st : MasterKeyState) (entropy : List Int) (now : Int)
    (storagePassword : Nat) : MasterKeyState × StorageBlob :=
  let k := generateMasterKey st entropy now
  ({ currentMasterKey := some k.key, keyVersion := k.version,
     keyCreatedAt := some k.createdAt },
   saveMasterKey storagePassword k)

/-- Rotation age threshold: 90 days in milliseconds. -/
def rotationMaxAge : Int := 90 * 24 * 60 * 60 * 1000

/-- `initMasterKey`: loads the existing key if `loadMasterKey` returns one
(rotating it when it is older than 90 days); otherwise — including when the
file exists but could not be decrypted — generates and saves a fresh key.
Returns the resulting module state and key file. -/
def initMasterKey (st : MasterKeyState) (file : Option StorageBlob)
    (storagePassword : Nat) (entropy : List Int) (now : Int) :
    MasterKeyState × Option StorageBlob :=
  match loadMasterKey file storagePassword with
  | some kd =>
      let st1 : MasterKeyState :=
        { currentMasterKey := some kd.key, keyVersion := kd.version,
          keyCreatedAt := some kd.createdAt }
      if now - kd.createdAt > rotationMaxAge then
        let r := rotateMasterKey st1 entropy now storagePassword
        (r.1, some r.2)
      else
        (st1, file)
  | none =>
      let k := generateMasterKey st entropy now
      ({ currentMasterKey := some k.key, keyVersion := k.version,
         keyCreatedAt := some k.createdAt },
       some (saveMasterKey storagePassword k))

/-- `getCurrentMasterKey`: throws when no key is initialised. -/
def getCurrentMasterKey (st : MasterKeyState) : Except KeyOpError (List Int) :=
  match st.currentMasterKey with
  | none => .error .notInitialized
  | some k => .ok k

/-- Idealised `EVP_BytesToKey` as used by the deprecated
`crypto.createCipher(alg, password)`: the cipher key and IV are a
deterministic function of the password alone (no salt, no per-call
randomness).  The derived key is the password itself and the IV is a digest
of it. -/
def evpBytesToKey (password : List Int) : List Int × List Int :=
  (password, [password.foldl (fun a b => a + b) 0])

/-- Keystream byte at position `i` of the idealised AES-GCM counter mode,
a function of the derived key, the IV and the position. -/
def keystreamAt (key iv : List Int) (i : Nat) : Int :=
  key.foldl (fun a b => a + b) 0 + iv.foldl (fun a b => a + b) 0 + Int.ofNat i

/-- Idealised GCM encryption: add the keystream bytewise. -/
def gcmEncryptAux (key iv : List Int) (i : Nat) : List Int → List Int
  | [] => []
  | b :: bs => (b + keystreamAt key iv i) :: gcmEncryptAux key iv (i + 1) bs

/-- Idealised GCM decryption: subtract the keystream bytewise. -/
def gcmDecryptAux (key iv : List Int) (i : Nat) : List Int → List Int
  | [] => []
  | b :: bs => (b - keystreamAt key iv i) :: gcmDecryptAux key iv (i + 1) bs

/-- `cipher.update`/`cipher.final` over the whole plaintext. -/
def gcmEncrypt (key iv pt : List Int) : List Int := gcmEncryptAux key iv 0 pt

/-- `decipher.update`/`decipher.final` over the whole ciphertext. -/
def gcmDecrypt (key iv ct : List Int) : List Int := gcmDecryptAux key iv 0 ct

/-- Idealised GCM authentication tag: binds the derived key, the IV and the
ciphertext collision-freely (list append is injective in the last component
for fixed key and IV lengths here, since key and IV are fixed lists). -/
def gcmTag (key iv ct : List Int) : List Int := key ++ iv ++ ct

/-- `WrappedKeyEnvelope`: the result of `wrapKey` — ciphertext, auth tag and
the master-key version in effect at wrap time.  The algorithm field is the
constant `AES-256-GCM` and is omitted. -/
structure WrappedKeyEnvelope where
  wrappedKey : List Int
  authTag : List Int
  version : Nat
  deriving DecidableEq, Repr

/-- `wrapKey(dek)`: encrypts the data-encryption key with
`crypto.createCipher('aes-256-gcm', masterKey)` — key and IV derived
deterministically from the current master key, no per-call nonce — and
returns ciphertext, tag and the current `keyVersion`.  Any thrown error is
caught and rethrown as the generic wrap failure. -/
def wrapKey (st : MasterKeyState) (dek : List Int) :
    Except KeyOpError WrappedKeyEnvelope :=
  match getCurrentMasterKey st with
  | .error _ => .error .wrapFailed
  | .ok mk =>
      let p := evpBytesToKey mk
      let ct := gcmEncrypt p.1 p.2 dek
      .ok { wrappedKey := ct, authTag := gcmTag p.1 p.2 ct,
            version := st.keyVersion }

/-- `unwrapKey(wrappedData)`: decrypts with
`crypto.createDecipher('aes-256-gcm', masterKey)` using the CURRENT master
key — the `version` recorded in the envelope is never consulted.  The
decipher verifies the auth tag; on mismatch `decipher.final` throws, which
the catch turns into the generic unwrap failure.  The same generic failure
results when no master key is initialised. -/
def unwrapKey (st : MasterKeyState) (env : WrappedKeyEnvelope) :
    Except KeyOpError (List Int) :=
  match getCurrentMasterKey st with
  | .error _ => .error .unwrapFailed
  | .ok mk =>
      let p := evpBytesToKey mk
      if env.authTag = gcmTag p.1 p.2 env.wrappedKey then
        .ok (gcmDecrypt p.1 p.2 env.wrappedKey)
      else
        .error .unwrapFailed

/-- Two successive calls to `wrapKey` on the same data-encryption key.
`wrapKey` does not write any module state, so the second call observes the
same state as the first. -/
def wrapTwice (st : MasterKeyState) (dek : List Int) :
    Except KeyOpError (WrappedKeyEnvelope × WrappedKeyEnvelope) :=
  match wrapKey st dek with
  | .error e => .error e
  | .ok e1 =>
      match wrapKey st dek with
      | .error e => .error e
      | .ok e2 => .ok (e1, e2)

end MasterKey

namespace MsgAuth

/-- JWT payload fields used by the services: `{jti, sub, username, email,
iat, exp}`.  Opaque identifiers are modelled as `Nat`; `iat`/`exp` are Unix
seconds. -/
structure TokenPayload where
  jti : Nat
  sub : Nat
  username : Nat
  email : Nat
  iat : Int
  exp : Int
  deriving DecidableEq, Repr

/-- A signed bearer token: a payload plus the public key against which its
RS256 signature verifies (abstracting the signature scheme: verification
with key `pk` succeeds exactly when `sigKey = pk`). -/
structure Token where
  payload : TokenPayload
  sigKey : Nat
  deriving DecidableEq, Repr

/-- Failure kinds of `jsonwebtoken.verify`; the middleware collapses both
into one thrown error, so the distinction never reaches a caller. -/
inductive JwtError where
  | invalidSignature
  | expired
  deriving DecidableEq, Repr

/-- `verifyJWT(token, publicKey)`: RS256 signature check followed by the
expiry check with `clockTolerance: 30` — the token is expired once
`now ≥ exp + 30`. -/
def verifyJWT (now : Int) (tok : Token) (publicKey : Nat) :
    Except JwtError TokenPayload :=
  if tok.sigKey ≠ publicKey then .error .invalidSignature
  else if tok.payload.exp + 30 ≤ now then .error .expired
  else .ok tok.payload

/-- State of the Redis connection seen by the middleware:
`blacklistTrue` lists the jtis `j` for which the key `blacklist:<j>` holds
the string value `true`; `ok` is false when Redis calls raise. -/
structure RedisState where
  blacklistTrue : List Nat
  ok : Bool
  deriving DecidableEq, Repr

/-- `checkTokenBlacklist(jti)`: reads `blacklist:<jti>` from Redis and
returns whether the stored value is the string `true`.  When the Redis call
raises, the catch returns `false` — default allow, so that a Redis error
does not affect the service. -/
def checkTokenBlacklist (redis : RedisState) (jti : Nat) : Bool :=
  if redis.ok then redis.blacklistTrue.contains jti else false

/-- Environment read by `verifyDualAuth`: the cached auth-service public key
(`getAuthPublicKey()` returns the cache content or nothing), the Redis
state, and the current time in Unix seconds. -/
structure GateEnv where
  authPublicKey : Option Nat
  redis : RedisState
  now : Int
  deriving DecidableEq, Repr

/-- The two bearer tokens of a request: the `Authorization` header (none
models a missing or non-Bearer header) and the `x-third-party-token`
header. -/
structure GateRequest where
  authorization : Option Token
  thirdPartyToken : Option Token
  deriving DecidableEq, Repr

/-- The distinct denial responses of `verifyDualAuth`, one per early-return
branch; each carries its own error body in the code. -/
inductive Denial where
  | missingAuthHeader
  | missingThirdPartyToken
  | authServiceUnavailable
  | invalidGoogleJWT
  | tokenRevoked
  | invalidThirdPartyJWT
  | tokenMismatch
  | tokenExpired
  deriving DecidableEq, Repr

/-- HTTP status code attached to each denial: 503 for the missing public
key, 401 for every authorization failure. -/
def Denial.status : Denial → Nat
  | .authServiceUnavailable => 503
  | _ => 401

/-- The authenticated context `req.auth` built on success: identity fields
taken from the primary (resource) token, plus the third-party token id. -/
structure AuthInfo where
  userId : Nat
  username : Nat
  email : Nat
  jti : Nat
  thirdPartyJti : Nat
  deriving DecidableEq, Repr

/-- Outcome of the dual authorization gate. -/
inductive GateResult where
  | authorized (info : AuthInfo)
  | denied (d : Denial)
  deriving DecidableEq, Repr

/-- `verifyDualAuth`: the dual-token gate of the message service.  Checks,
in order: presence of the Authorization header, presence of the third-party
token, availability of the cached auth-service public key, signature and
expiry of the primary token, the Redis blacklist for the PRIMARY token jti
only, signature and expiry of the third-party token, agreement of the two
tokens on `sub` and `username`, and finally a strict re-check of both expiry
times without clock tolerance. -/
def verifyDualAuth (env : GateEnv) (req : GateRequest) : GateResult :=
  match req.authorization with
  | none => .denied .missingAuthHeader
  | some token =>
    match req.thirdPartyToken with
    | none => .denied .missingThirdPartyToken
    | some tpToken =>
      match env.authPublicKey with
      | none => .denied .authServiceUnavailable
      | some pk =>
        match verifyJWT env.now token pk with
        | .error _ => .denied .invalidGoogleJWT
        | .ok googleJWT =>
          if checkTokenBlacklist env.redis googleJWT.jti then
            .denied .tokenRevoked
          else
            match verifyJWT env.now tpToken pk with
            | .error _ => .denied .invalidThirdPartyJWT
            | .ok thirdPartyJWT =>
              if googleJWT.sub ≠ thirdPartyJWT.sub
                  ∨ googleJWT.username ≠ thirdPartyJWT.username then
                .denied .tokenMismatch
              else if googleJWT.exp < env.now
                  ∨ thirdPartyJWT.exp < env.now then
                .denied .tokenExpired
              else
                .authorized
                  { userId := googleJWT.sub, username := googleJWT.username,
                    email := googleJWT.email, jti := googleJWT.jti,
                    thirdPartyJti := thirdPartyJWT.jti }

end MsgAuth

namespace AuthRoutes

open MsgAuth

/-- `POST /logout` of the auth service: verifies the bearer token with the
auth-service public key (`jsonwebtoken.verify`, no clock tolerance) and on
success inserts its jti into the durable Postgres `token_blacklist` table.
Any failure is caught and reported as a 500; the table is unchanged. -/
def routerLogout (now : Int) (db : List Nat) (authToken : Option Token)
    (publicKey : Nat) : Except Unit (List Nat) :=
  match authToken with
  | none => .error ()
  | some tok =>
      if tok.sigKey = publicKey ∧ now < tok.payload.exp then
        .ok (tok.payload.jti :: db)
      else
        .error ()

end AuthRoutes

namespace AuthClient

/-- `fetchAuthPublicKey()`: returns the cached public key when the
`NodeCache` entry is live; otherwise performs the network fetch, caching the
key on success; on fetch failure the catch re-reads the cache and returns a
stale key when one exists, rethrowing only when the cache is empty.
Returns the key and the cache state after the call. -/
def fetchAuthPublicKey (cache : Option Nat) (fetchResult : Except Unit Nat) :
    Except Unit (Nat × Option Nat) :=
  match cache with
  | some k => .ok (k, cache)
  | none =>
      match fetchResult with
      | .ok k => .ok (k, some k)
      | .error _ =>
          match cache with
          | some k => .ok (k, cache)
          | none => .error ()

end AuthClient

open MasterKey
open MsgAuth
open AuthRoutes
open AuthClient

theorem gcmDecryptAux_gcmEncryptAux (key iv : List Int) :
    ∀ (l : List Int) (i : Nat),
      gcmDecryptAux key iv i (gcmEncryptAux key iv i l) = l := by
  intro l
  induction l with
  | nil => intro i; rfl
  | cons b bs ih =>
      intro i
      simp [gcmEncryptAux, gcmDecryptAux, ih (i + 1)]

theorem gcmDecrypt_gcmEncrypt (key iv pt : List Int) :
    gcmDecrypt key iv (gcmEncrypt key iv pt) = pt :=
  gcmDecryptAux_gcmEncryptAux key iv pt 0

/-- C1: for every plaintext data-encryption key, unwrapping the envelope
produced by wrapping it succeeds and returns the original plaintext key,
provided the master key is initialised and the state is unchanged between
the two calls. -/
theorem c1_wrap_unwrap_roundtrip (st : MasterKeyState) (mk dek : List Int)
    (hinit : st.currentMasterKey = some mk) (env : WrappedKeyEnvelope)
    (hwrap : wrapKey st dek = .ok env) :
    unwrapKey st env = .ok dek := by
  unfold wrapKey at hwrap
  unfold unwrapKey getCurrentMasterKey at *
  rw [hinit] at hwrap ⊢
  simp only at hwrap
  cases hwrap
  simp [gcmDecrypt_gcmEncrypt]

/-- Witness for C1 at a concrete state and key: master key `[1, 2]`,
data-encryption key `[5, 6]`. -/
theorem c1_wrap_unwrap_roundtrip_witness :
    unwrapKey
      { currentMasterKey := some [1, 2], keyVersion := 2,
        keyCreatedAt := some 0 }
      { wrappedKey := [11, 13], authTag := [1, 2, 3, 11, 13], version := 2 }
      = .ok [5, 6] :=
  c1_wrap_unwrap_roundtrip
    { currentMasterKey := some [1, 2], keyVersion := 2, keyCreatedAt := some 0 }
    [1, 2] [5, 6] rfl
    { wrappedKey := [11, 13], authTag := [1, 2, 3, 11, 13], version := 2 }
    rfl

/-- C5: evaluation of the code at a failing input for the claim that two
wraps of the same plaintext key yield two different ciphertexts.  `wrapKey`
has no randomness source — the deprecated `createCipher` derives key and IV
deterministically from the master key — so wrapping `[5, 6]` twice under
master key `[1, 2]` returns the very same envelope (same ciphertext
`[11, 13]`) both times. -/
theorem c5_wrap_twice_identical :
    wrapTwice
      { currentMasterKey := some [1, 2], keyVersion := 2,
        keyCreatedAt := some 0 }
      [5, 6]
      = .ok
          ({ wrappedKey := [11, 13], authTag := [1, 2, 3, 11, 13],
             version := 2 },
           { wrappedKey := [11, 13], authTag := [1, 2, 3, 11, 13],
             version := 2 }) :=
  rfl

/-- C2: evaluation of the code at a failing input for the claim that
envelopes wrapped before `rotate()` still unwrap afterwards.  An envelope
wrapped under master key `[1, 2]` (version 2) fails to unwrap after rotation
to key `[9, 9]` (version 3), because `unwrapKey` uses only the current key
and `rotateMasterKey` drops the prior key.  The second half of the claim —
wraps after rotation carry the new version number — does hold. -/
theorem c2_unwrap_after_rotation_fails :
    wrapKey
      { currentMasterKey := some [1, 2], keyVersion := 2,
        keyCreatedAt := some 0 }
      [5, 6]
      = .ok { wrappedKey := [11, 13], authTag := [1, 2, 3, 11, 13],
              version := 2 }
    ∧ (rotateMasterKey
        { currentMasterKey := some [1, 2], keyVersion := 2,
          keyCreatedAt := some 0 }
        [9, 9] 5 7).1
      = { currentMasterKey := some [9, 9], keyVersion := 3,
          keyCreatedAt := some 5 }
    ∧ unwrapKey
        { currentMasterKey := some [9, 9], keyVersion := 3,
          keyCreatedAt := some 5 }
        { wrappedKey := [11, 13], authTag := [1, 2, 3, 11, 13], version := 2 }
      = .error .unwrapFailed
    ∧ wrapKey
        { currentMasterKey := some [9, 9], keyVersion := 3,
          keyCreatedAt := some 5 }
        [5, 6]
      = .ok { wrappedKey := [41, 43], authTag := [9, 9, 18, 41, 43],
              version := 3 } :=
  ⟨rfl, rfl, rfl, rfl⟩

/-- C6: evaluation of the code at a failing input for the claim that startup
fails closed when the key file exists but cannot be decrypted.  With a key
file encrypted under storage password 1 and the current storage password 2,
`loadMasterKey` swallows the decryption failure and returns `null`, so
`initMasterKey` silently generates a fresh master key (the supplied entropy
`[8, 8]`) instead of aborting — `initMasterKey` has no failure path at
all. -/
theorem c6_init_regenerates_on_decrypt_failure :
    loadMasterKey
      (some { encPassword := 1,
              payload := { key := [4, 4], version := 2, createdAt := 0,
                           keyId := [4, 4] } })
      2
      = none
    ∧ (initMasterKey initialState
        (some { encPassword := 1,
                payload := { key := [4, 4], version := 2, createdAt := 0,
                             keyId := [4, 4] } })
        2 [8, 8] 100).1
      = { currentMasterKey := some [8, 8], keyVersion := 2,
          keyCreatedAt := some 100 } :=
  ⟨rfl, rfl⟩

/-- C7: for every envelope produced by `wrapKey` whose ciphertext or
authentication tag is altered, `unwrapKey` fails with the unwrap error and
never returns a plaintext. -/
theorem c7_tampered_unwrap_fails (st : MasterKeyState) (mk dek : List Int)
    (hinit : st.currentMasterKey = some mk) (env : WrappedKeyEnvelope)
    (hwrap : wrapKey st dek = .ok env) :
    (∀ ct2, ct2 ≠ env.wrappedKey →
      unwrapKey st { env with wrappedKey := ct2 } = .error .unwrapFailed)
    ∧ (∀ tag2, tag2 ≠ env.authTag →
      unwrapKey st { env with authTag := tag2 } = .error .unwrapFailed) := by
  unfold wrapKey at hwrap
  unfold unwrapKey getCurrentMasterKey at *
  rw [hinit] at hwrap ⊢
  simp only at hwrap
  cases hwrap
  constructor
  · intro ct2 hne
    simp only
    rw [if_neg]
    intro h
    unfold gcmTag at h
    have h2 := List.append_cancel_left h
    exact hne h2.symm
  · intro tag2 hne
    simp only
    rw [if_neg]
    intro h
    exact hne h

/-- Witness for C7 at a concrete state and envelope: master key `[1, 2]`,
envelope `([11, 13], [1, 2, 3, 11, 13])`, ciphertext replaced by `[0]` in
the first conjunct and tag replaced by `[0]` in the second. -/
theorem c7_tampered_unwrap_fails_witness :
    unwrapKey
      { currentMasterKey := some [1, 2], keyVersion := 2,
        keyCreatedAt := some 0 }
      { wrappedKey := [0], authTag := [1, 2, 3, 11, 13], version := 2 }
      = .error .unwrapFailed
    ∧ unwrapKey
      { currentMasterKey := some [1, 2], keyVersion := 2,
        keyCreatedAt := some 0 }
      { wrappedKey := [11, 13], authTag := [0], version := 2 }
      = .error .unwrapFailed :=
  ⟨(c7_tampered_unwrap_fails
      { currentMasterKey := some [1, 2], keyVersion := 2,
        keyCreatedAt := some 0 }
      [1, 2] [5, 6] rfl
      { wrappedKey := [11, 13], authTag := [1, 2, 3, 11, 13], version := 2 }
      rfl).1 [0] (by decide),
   (c7_tampered_unwrap_fails
      { currentMasterKey := some [1, 2], keyVersion := 2,
        keyCreatedAt := some 0 }
      [1, 2] [5, 6] rfl
      { wrappedKey := [11, 13], authTag := [1, 2, 3, 11, 13], version := 2 }
      rfl).2 [0] (by decide)⟩

/-- C4: when both tokens reach the subject-agreement check (headers present,
public key available, both signatures and tolerant expiries valid, primary
jti not blacklisted) and the two tokens differ in subject id or username,
the gate returns the distinct token-mismatch denial; and whenever the gate
authorizes, the two tokens agree on subject and username and the authorized
identity is that common subject — never a coerced one. -/
theorem c4_subject_mismatch_denied (env : GateEnv) (req : GateRequest)
    (tok tp : Token) (pk : Nat) (g t : TokenPayload)
    (hA : req.authorization = some tok)
    (hT : req.thirdPartyToken = some tp)
    (hP : env.authPublicKey = some pk)
    (hg : verifyJWT env.now tok pk = .ok g)
    (hb : checkTokenBlacklist env.redis g.jti = false)
    (ht : verifyJWT env.now tp pk = .ok t) :
    ((g.sub ≠ t.sub ∨ g.username ≠ t.username) →
      verifyDualAuth env req = .denied .tokenMismatch)
    ∧ (∀ info, verifyDualAuth env req = .authorized info →
        g.sub = t.sub ∧ g.username = t.username
          ∧ info.userId = g.sub ∧ info.username = g.username) := by
  unfold verifyDualAuth
  simp only [hA, hT, hP, hg, hb, ht, Bool.false_eq_true, if_false]
  constructor
  · intro hne
    rw [if_pos hne]
  · intro info hinfo
    by_cases hmm : g.sub ≠ t.sub ∨ g.username ≠ t.username
    · rw [if_pos hmm] at hinfo
      cases hinfo
    · rw [if_neg hmm] at hinfo
      by_cases hexp : g.exp < env.now ∨ t.exp < env.now
      · rw [if_pos hexp] at hinfo
        cases hinfo
      · rw [if_neg hexp] at hinfo
        push_neg at hmm
        cases hinfo
        exact ⟨hmm.1, hmm.2, rfl, rfl⟩

/-- Witness for C4: two otherwise-valid tokens with subjects 10 and 11 are
denied with the token-mismatch denial. -/
theorem c4_subject_mismatch_denied_witness :
    verifyDualAuth
      { authPublicKey := some 5,
        redis := { blacklistTrue := [], ok := true }, now := 100 }
      { authorization :=
          some { payload := { jti := 1, sub := 10, username := 20,
                              email := 30, iat := 0, exp := 1000 },
                 sigKey := 5 },
        thirdPartyToken :=
          some { payload := { jti := 2, sub := 11, username := 20,
                              email := 31, iat := 0, exp := 1000 },
                 sigKey := 5 } }
      = .denied .tokenMismatch :=
  (c4_subject_mismatch_denied
    { authPublicKey := some 5,
      redis := { blacklistTrue := [], ok := true }, now := 100 }
    { authorization :=
        some { payload := { jti := 1, sub := 10, username := 20,
                            email := 30, iat := 0, exp := 1000 },
               sigKey := 5 },
      thirdPartyToken :=
        some { payload := { jti := 2, sub := 11, username := 20,
                            email := 31, iat := 0, exp := 1000 },
               sigKey := 5 } }
    { payload := { jti := 1, sub := 10, username := 20, email := 30,
                   iat := 0, exp := 1000 }, sigKey := 5 }
    { payload := { jti := 2, sub := 11, username := 20, email := 31,
                   iat := 0, exp := 1000 }, sigKey := 5 }
    5
    { jti := 1, sub := 10, username := 20, email := 30, iat := 0,
      exp := 1000 }
    { jti := 2, sub := 11, username := 20, email := 31, iat := 0,
      exp := 1000 }
    rfl rfl rfl rfl rfl rfl).1 (Or.inl (by decide))

/-- C10: the gate consults the blacklist only for the primary (resource)
token jti.  When the third-party identity token jti IS blacklisted but the
primary jti is not, and everything else about both tokens is valid and in
agreement, the gate still authorizes the operation. -/
theorem c10_identity_jti_not_checked (env : GateEnv) (req : GateRequest)
    (tok tp : Token) (pk : Nat) (g t : TokenPayload)
    (hA : req.authorization = some tok)
    (hT : req.thirdPartyToken = some tp)
    (hP : env.authPublicKey = some pk)
    (hg : verifyJWT env.now tok pk = .ok g)
    (hbP : checkTokenBlacklist env.redis g.jti = false)
    (ht : verifyJWT env.now tp pk = .ok t)
    (hbT : checkTokenBlacklist env.redis t.jti = true)
    (hsub : g.sub = t.sub) (huser : g.username = t.username)
    (hge : env.now ≤ g.exp) (hte : env.now ≤ t.exp) :
    verifyDualAuth env req
      = .authorized
          { userId := g.sub, username := g.username, email := g.email,
            jti := g.jti, thirdPartyJti := t.jti } := by
  have h1 : ¬(g.sub ≠ t.sub ∨ g.username ≠ t.username) := by
    push_neg
    exact ⟨hsub, huser⟩
  have h2 : ¬(g.exp < env.now ∨ t.exp < env.now) := by
    push_neg
    exact ⟨hge, hte⟩
  unfold verifyDualAuth
  simp only [hA, hT, hP, hg, hbP, ht, Bool.false_eq_true, if_false,
    if_neg h1, if_neg h2]

/-- Witness for C10: the identity token jti 2 is blacklisted in Redis, the
primary jti 1 is not, and the request is authorized. -/
theorem c10_identity_jti_not_checked_witness :
    verifyDualAuth
      { authPublicKey := some 5,
        redis := { blacklistTrue := [2], ok := true }, now := 100 }
      { authorization :=
          some { payload := { jti := 1, sub := 10, username := 20,
                              email := 30, iat := 0, exp := 1000 },
                 sigKey := 5 },
        thirdPartyToken :=
          some { payload := { jti := 2, sub := 10, username := 20,
                              email := 31, iat := 0, exp := 1000 },
                 sigKey := 5 } }
      = .authorized
          { userId := 10, username := 20, email := 30, jti := 1,
            thirdPartyJti := 2 } :=
  c10_identity_jti_not_checked
    { authPublicKey := some 5,
      redis := { blacklistTrue := [2], ok := true }, now := 100 }
    { authorization :=
        some { payload := { jti := 1, sub := 10, username := 20,
                            email := 30, iat := 0, exp := 1000 },
               sigKey := 5 },
      thirdPartyToken :=
        some { payload := { jti := 2, sub := 10, username := 20,
                            email := 31, iat := 0, exp := 1000 },
               sigKey := 5 } }
    { payload := { jti := 1, sub := 10, username := 20, email := 30,
                   iat := 0, exp := 1000 }, sigKey := 5 }
    { payload := { jti := 2, sub := 10, username := 20, email := 31,
                   iat := 0, exp := 1000 }, sigKey := 5 }
    5
    { jti := 1, sub := 10, username := 20, email := 30, iat := 0,
      exp := 1000 }
    { jti := 2, sub := 10, username := 20, email := 31, iat := 0,
      exp := 1000 }
    rfl rfl rfl rfl rfl rfl rfl rfl rfl (by decide) (by decide)

/-- C3: evaluation of the code at a failing input for the claim that a
revoked jti is subsequently rejected.  Logout inserts jti 11 into the
durable Postgres token-blacklist table, but the message-service gate
consults only the Redis key space, which no code path ever populates, so
the same token is still authorized afterwards; and when the Redis call
errors, even a populated blacklist entry is reported as not revoked. -/
theorem c3_revoked_token_still_authorized :
    routerLogout 100 []
      (some { payload := { jti := 11, sub := 10, username := 20, email := 30,
                           iat := 0, exp := 1000 }, sigKey := 5 })
      5
      = .ok [11]
    ∧ ([11] : List Nat).contains 11 = true
    ∧ checkTokenBlacklist { blacklistTrue := [], ok := true } 11 = false
    ∧ verifyDualAuth
        { authPublicKey := some 5,
          redis := { blacklistTrue := [], ok := true }, now := 100 }
        { authorization :=
            some { payload := { jti := 11, sub := 10, username := 20,
                                email := 30, iat := 0, exp := 1000 },
                   sigKey := 5 },
          thirdPartyToken :=
            some { payload := { jti := 12, sub := 10, username := 20,
                                email := 30, iat := 0, exp := 1000 },
                   sigKey := 5 } }
        = .authorized
            { userId := 10, username := 20, email := 30, jti := 11,
              thirdPartyJti := 12 }
    ∧ checkTokenBlacklist { blacklistTrue := [11], ok := false } 11
        = false := by
  refine ⟨?_, rfl, rfl, ?_, rfl⟩
  · rfl
  · rfl

/-- C8 counterexample: the gate does not return a uniform denial.  A revoked
primary token and a subject mismatch — both authorization failures — produce
two different denial responses, so an external caller can tell which check
failed. -/
theorem c8_counterexample_denials_distinguishable :
    verifyDualAuth
      { authPublicKey := some 5,
        redis := { blacklistTrue := [1], ok := true }, now := 100 }
      { authorization :=
          some { payload := { jti := 1, sub := 10, username := 20,
                              email := 30, iat := 0, exp := 1000 },
                 sigKey := 5 },
        thirdPartyToken :=
          some { payload := { jti := 2, sub := 10, username := 20,
                              email := 30, iat := 0, exp := 1000 },
                 sigKey := 5 } }
      = .denied .tokenRevoked
    ∧ verifyDualAuth
      { authPublicKey := some 5,
        redis := { blacklistTrue := [], ok := true }, now := 100 }
      { authorization :=
          some { payload := { jti := 1, sub := 10, username := 20,
                              email := 30, iat := 0, exp := 1000 },
                 sigKey := 5 },
        thirdPartyToken :=
          some { payload := { jti := 2, sub := 11, username := 20,
                              email := 30, iat := 0, exp := 1000 },
                 sigKey := 5 } }
      = .denied .tokenMismatch
    ∧ Denial.tokenRevoked ≠ Denial.tokenMismatch := by
  refine ⟨rfl, rfl, ?_⟩
  decide

/-- C8 amended: what is uniform across the gate denials is only the HTTP
status code — every authorization failure is a 401, with 503 reserved for
the missing verification key — while the response body is specific to the
failed check. -/
theorem c8_amended_status_uniform (env : GateEnv) (req : GateRequest)
    (d : Denial) (h : verifyDualAuth env req = .denied d) :
    (d = .authServiceUnavailable ∧ Denial.status d = 503)
    ∨ (d ≠ .authServiceUnavailable ∧ Denial.status d = 401) := by
  cases d <;> simp [Denial.status]

/-- Witness for the amended C8 at a concrete denied request (revoked primary
token). -/
theorem c8_amended_status_uniform_witness :
    (Denial.tokenRevoked = Denial.authServiceUnavailable
      ∧ Denial.status .tokenRevoked = 503)
    ∨ (Denial.tokenRevoked ≠ Denial.authServiceUnavailable
      ∧ Denial.status .tokenRevoked = 401) :=
  c8_amended_status_uniform
    { authPublicKey := some 5,
      redis := { blacklistTrue := [1], ok := true }, now := 100 }
    { authorization :=
        some { payload := { jti := 1, sub := 10, username := 20,
                            email := 30, iat := 0, exp := 1000 },
               sigKey := 5 },
      thirdPartyToken :=
        some { payload := { jti := 2, sub := 10, username := 20,
                            email := 30, iat := 0, exp := 1000 },
               sigKey := 5 } }
    Denial.tokenRevoked rfl

/-- C9: when the signing-key cache holds a key, `fetchAuthPublicKey` returns
it whatever the network fetch would do (stale-but-available fallback — the
cached key short-circuits the fetch, and a fetch failure falls back to the
cache); with an empty cache a failed fetch propagates the error; and the
gate, whose `getAuthPublicKey()` read yields nothing when the cache is
empty, denies every request as service-unavailable rather than proceeding
without a verification key. -/
theorem c9_stale_fallback_and_fail_closed (cache : Option Nat) (k : Nat)
    (fr : Except Unit Nat) (env : GateEnv) (req : GateRequest)
    (tok tp : Token) :
    (cache = some k → fetchAuthPublicKey cache fr = .ok (k, cache))
    ∧ fetchAuthPublicKey none (.error ()) = .error ()
    ∧ (env.authPublicKey = none → req.authorization = some tok →
        req.thirdPartyToken = some tp →
        verifyDualAuth env req = .denied .authServiceUnavailable) := by
  refine ⟨?_, rfl, ?_⟩
  · intro h
    subst h
    rfl
  · intro hP hA hT
    unfold verifyDualAuth
    simp only [hA, hT, hP]

/-- Witness for C9: cached key 5 survives a failed fetch; an empty cache
plus failed fetch errors; and a concrete request against an empty key cache
is denied as service-unavailable. -/
theorem c9_stale_fallback_and_fail_closed_witness :
    fetchAuthPublicKey (some 5) (.error ()) = .ok (5, some 5)
    ∧ fetchAuthPublicKey none (.error ()) = .error ()
    ∧ verifyDualAuth
        { authPublicKey := none,
          redis := { blacklistTrue := [], ok := true }, now := 100 }
        { authorization :=
            some { payload := { jti := 1, sub := 10, username := 20,
                                email := 30, iat := 0, exp := 1000 },
                   sigKey := 5 },
          thirdPartyToken :=
            some { payload := { jti := 2, sub := 10, username := 20,
                                email := 30, iat := 0, exp := 1000 },
                   sigKey := 5 } }
        = .denied .authServiceUnavailable := by
  have h := c9_stale_fallback_and_fail_closed (some 5) 5 (.error ())
    { authPublicKey := none,
      redis := { blacklistTrue := [], ok := true }, now := 100 }
    { authorization :=
        some { payload := { jti := 1, sub := 10, username := 20,
                            email := 30, iat := 0, exp := 1000 },
               sigKey := 5 },
      thirdPartyToken :=
        some { payload := { jti := 2, sub := 10, username := 20,
                            email := 30, iat := 0, exp := 1000 },
               sigKey := 5 } }
    { payload := { jti := 1, sub := 10, username := 20, email := 30,
                   iat := 0, exp := 1000 }, sigKey := 5 }
    { payload := { jti := 2, sub := 10, username := 20, email := 30,
                   iat := 0, exp := 1000 }, sigKey := 5 }
  exact ⟨h.1 rfl, h.2.1, h.2.2 rfl rfl rfl⟩
